import Mathlib

/-!
Verification development for the opgl-gateway-service admission-control,
credential-lifecycle and orchestration core.

The Go source is shallowly embedded: pure decision logic becomes Lean
functions, the PostgreSQL-backed stores become explicit state values that
are threaded through the functions modelling the SQL statements, and Go
`int` arithmetic (never near overflow here) is modelled over `Int`/`Nat`.
Cryptographic primitives (SHA-256 digests, HMAC signatures, bcrypt) are
modelled as function parameters or perfect-primitive structures: no claim
depends on their internals, only on how the surrounding code uses them.
-/

set_option autoImplicit false

namespace OpglGateway

/-! ### Rate limiting: repository layer (package repository)

`APIKey` mirrors the `api_keys` row; `RateRecord` mirrors a
`rate_limit_records` row.  The `rate_limit_records` table is modelled as a
list of rows; the `UNIQUE(api_key_id, window_start)` constraint is stated
as a `Nodup` invariant over the projected keys. -/

structure APIKey where
  id : String
  keyHash : String
  name : String
  rateLimit : Int
  rateWindowSeconds : Nat
  isActive : Bool
deriving DecidableEq, Repr

structure RateRecord where
  apiKeyID : String
  windowStart : Nat
  requestCount : Nat
deriving DecidableEq, Repr

abbrev RateStore := List RateRecord

/-- `GetByKeyHash`: `SELECT ... FROM api_keys WHERE key_hash = $1 AND
is_active = true`, returning `nil` (here `none`) when no row matchList. -/
def GetByKeyHash (keys : List APIKey) (keyHash : String) : Option APIKey :=
  keys.find? (fun k => k.keyHash == keyHash && k.isActive)

/-- `IncrementRequestCount`: the single upsert statement
`INSERT ... VALUES ($1,$2,1) ON CONFLICT (api_key_id, window_start)
DO UPDATE SET request_count = request_count + 1 RETURNING request_count`.
Returns the new count together with the updated store. -/
def IncrementRequestCount : RateStore → String → Nat → Nat × RateStore
  | [], keyID, ws => (1, [⟨keyID, ws, 1⟩])
  | r :: rest, keyID, ws =>
    if r.apiKeyID = keyID ∧ r.windowStart = ws then
      (r.requestCount + 1, ⟨r.apiKeyID, r.windowStart, r.requestCount + 1⟩ :: rest)
    else
      let step := IncrementRequestCount rest keyID ws
      (step.1, r :: step.2)

/-- `GetRequestCount`: `SELECT request_count FROM rate_limit_records WHERE
api_key_id = $1 AND window_start = $2`, with `sql.ErrNoRows` mapped to 0. -/
def GetRequestCount : RateStore → String → Nat → Nat
  | [], _, _ => 0
  | r :: rest, keyID, ws =>
    if r.apiKeyID = keyID ∧ r.windowStart = ws then r.requestCount
    else GetRequestCount rest keyID ws

/-- The (key, window-start) projection of the counter table, used to state
its `UNIQUE(api_key_id, window_start)` constraint. -/
def storeKeys (store : RateStore) : List (String × Nat) :=
  store.map (fun r => (r.apiKeyID, r.windowStart))

/-! ### Rate limiting: decision logic (package ratelimit) -/

structure RateLimitResult where
  allowed : Bool
  limit : Int
  remaining : Int
  resetTime : Nat
deriving DecidableEq, Repr

/-- `calculateWindowStart`: `(currentUnix / windowSeconds) * windowSeconds`
on Unix seconds.  Go `int64` division truncates toward zero; check times
are nonnegative Unix timestamps, so `Nat` division coincides with it. -/
def calculateWindowStart (currentUnix : Nat) (windowSeconds : Nat) : Nat :=
  currentUnix / windowSeconds * windowSeconds

/-- `CheckRateLimit`.  `hashAPIKey` abstracts `repository.HashAPIKey`
(SHA-256 hex digest); `keys` and `store` are the database state; `now` is
the wall-clock Unix time read at check time.  Storage never errors in this
model, so the `error` return path is absent; the fire-and-forget
`UpdateLastUsed` goroutine touches no state this model tracks. -/
def CheckRateLimit (hashAPIKey : String → String) (keys : List APIKey)
    (store : RateStore) (now : Nat) (apiKey : String) :
    RateLimitResult × RateStore :=
  match GetByKeyHash keys (hashAPIKey apiKey) with
  | none => (⟨false, 0, 0, now⟩, store)
  | some record =>
    let windowStart := calculateWindowStart now record.rateWindowSeconds
    let step := IncrementRequestCount store record.id windowStart
    let remaining := record.rateLimit - (step.1 : Int)
    (⟨decide ((step.1 : Int) ≤ record.rateLimit), record.rateLimit,
      if remaining < 0 then 0 else remaining,
      windowStart + record.rateWindowSeconds⟩, step.2)

/-! ### Rate limiting: middleware (internal/middleware/ratelimit.go) -/

inductive MiddlewareOutcome
  | missingKey
  | invalidKey
  | rateLimited (retryAfter : Int)
  | proceed
deriving DecidableEq, Repr

/-- HTTP status written by the middleware for each rejecting outcome;
`proceed` hands the request to the next handler and writes none itself. -/
def outcomeStatus : MiddlewareOutcome → Option Nat
  | .missingKey => some 401
  | .invalidKey => some 401
  | .rateLimited _ => some 429
  | .proceed => none

/-- `RateLimitMiddleware` decision flow: missing header, then
`CheckRateLimit`, then the `Limit == 0` invalid-key check, then the
`!Allowed` 429 branch computing `Retry-After`, else proceed. -/
def RateLimitMiddleware (hashAPIKey : String → String) (keys : List APIKey)
    (store : RateStore) (now : Nat) (apiKeyHeader : String) :
    MiddlewareOutcome × RateStore :=
  if apiKeyHeader = "" then (.missingKey, store)
  else
    let checked := CheckRateLimit hashAPIKey keys store now apiKeyHeader
    if checked.1.limit = 0 then (.invalidKey, checked.2)
    else if checked.1.allowed then (.proceed, checked.2)
    else
      let retryAfter := (checked.1.resetTime : Int) - (now : Int)
      (.rateLimited (if retryAfter < 0 then 1 else retryAfter), checked.2)

/-! ### Admin key creation defaults (internal/api/admin_handlers.go) -/

/-- `CreateAPIKey`: `if rateLimit <= 0 { rateLimit = 100 }`. -/
def effectiveRateLimit (requested : Int) : Int :=
  if requested ≤ 0 then 100 else requested

/-- `CreateAPIKey`: `if rateWindowSeconds <= 0 { rateWindowSeconds = 60 }`. -/
def effectiveRateWindowSeconds (requested : Int) : Int :=
  if requested ≤ 0 then 60 else requested

/-! ### Repeated increments

Each `IncrementRequestCount` call is one SQL statement, atomic at the
store, so any concurrent execution of K calls for the same key and window
linearizes to K successive applications; `iterateIncrements` is that
linearization and records the value each invocation observes. -/

def iterateIncrements : Nat → RateStore → String → Nat → List Nat × RateStore
  | 0, store, _, _ => ([], store)
  | k + 1, store, keyID, ws =>
    let step := IncrementRequestCount store keyID ws
    let rest := iterateIncrements k step.2 keyID ws
    (step.1 :: rest.1, rest.2)

/-! ### Helper lemmas about the counter store -/

theorem IncrementRequestCount_fst (store : RateStore) (keyID : String) (ws : Nat) :
    (IncrementRequestCount store keyID ws).1 = GetRequestCount store keyID ws + 1 := by
  induction store with
  | nil => simp [IncrementRequestCount, GetRequestCount]
  | cons r rest ih =>
    by_cases h : r.apiKeyID = keyID ∧ r.windowStart = ws
    · simp [IncrementRequestCount, GetRequestCount, h]
    · simp [IncrementRequestCount, GetRequestCount, h, ih]

theorem GetRequestCount_IncrementRequestCount_self (store : RateStore)
    (keyID : String) (ws : Nat) :
    GetRequestCount (IncrementRequestCount store keyID ws).2 keyID ws
      = GetRequestCount store keyID ws + 1 := by
  induction store with
  | nil => simp [IncrementRequestCount, GetRequestCount]
  | cons r rest ih =>
    by_cases h : r.apiKeyID = keyID ∧ r.windowStart = ws
    · simp [IncrementRequestCount, GetRequestCount, h]
    · simp [IncrementRequestCount, GetRequestCount, h, ih]

theorem storeKeys_IncrementRequestCount (store : RateStore)
    (keyID : String) (ws : Nat) :
    storeKeys (IncrementRequestCount store keyID ws).2
      = if (keyID, ws) ∈ storeKeys store then storeKeys store
        else storeKeys store ++ [(keyID, ws)] := by
  induction store with
  | nil => simp [IncrementRequestCount, storeKeys]
  | cons r rest ih =>
    by_cases h : r.apiKeyID = keyID ∧ r.windowStart = ws
    · simp [IncrementRequestCount, storeKeys, h, Prod.ext_iff]
    · have hne : ¬(keyID, ws) = (r.apiKeyID, r.windowStart) := by
        intro hc
        exact h ⟨(Prod.ext_iff.mp hc).1.symm, (Prod.ext_iff.mp hc).2.symm⟩
      simp only [IncrementRequestCount, h, if_false, storeKeys, List.map_cons,
        List.mem_cons, hne, false_or]
      simp only [storeKeys] at ih
      rw [ih]
      by_cases hm : (keyID, ws) ∈ rest.map (fun r => (r.apiKeyID, r.windowStart))
      · simp [hm]
      · simp [hm]

theorem storeKeys_nodup_IncrementRequestCount (store : RateStore)
    (keyID : String) (ws : Nat) (hnd : (storeKeys store).Nodup) :
    (storeKeys (IncrementRequestCount store keyID ws).2).Nodup := by
  rw [storeKeys_IncrementRequestCount]
  by_cases hm : (keyID, ws) ∈ storeKeys store
  · simpa [hm] using hnd
  · simp [hm, List.nodup_append, hnd]

theorem GetRequestCount_eq_zero_of_not_mem (store : RateStore)
    (keyID : String) (ws : Nat) (h : (keyID, ws) ∉ storeKeys store) :
    GetRequestCount store keyID ws = 0 := by
  induction store with
  | nil => simp [GetRequestCount]
  | cons r rest ih =>
    simp [storeKeys, Prod.ext_iff] at h
    have hne : ¬(r.apiKeyID = keyID ∧ r.windowStart = ws) := by
      intro hc
      exact absurd hc.2.symm (h.1 hc.1.symm)
    simp only [GetRequestCount, hne, if_false]
    exact ih (by simpa [storeKeys, Prod.ext_iff] using h.2)

theorem iterateIncrements_spec (keyID : String) (ws : Nat) :
    ∀ (k : Nat) (store : RateStore),
      (iterateIncrements k store keyID ws).1
        = (List.range k).map (fun i => GetRequestCount store keyID ws + i + 1) ∧
      GetRequestCount (iterateIncrements k store keyID ws).2 keyID ws
        = GetRequestCount store keyID ws + k := by
  intro k
  induction k with
  | zero => intro store; simp [iterateIncrements]
  | succ n ih =>
    intro store
    have h1 := IncrementRequestCount_fst store keyID ws
    have h2 := GetRequestCount_IncrementRequestCount_self store keyID ws
    constructor
    · simp only [iterateIncrements]
      rw [(ih _).1, h1, h2, List.range_succ_eq_map, List.map_cons, List.map_map]
      congr 1
      refine List.map_congr_left ?_
      intro i _
      simp only [Function.comp]
      omega
    · simp only [iterateIncrements]
      rw [(ih _).2, h2]
      omega

/-! ### Claim theorems for the rate-limiting subsystem -/

/-- C1: for an API key record found (hence active) with limit L and
window W, `CheckRateLimit` increments the window counter to a new count
N = previous + 1 and returns `Allowed = (N ≤ L)`,
`Remaining = max 0 (L - N)` and `ResetTime = windowStart + W`; in
particular the request bringing the count to exactly L is allowed with
`Remaining = 0`, and the (L+1)th request in the same window is
rejected. -/
theorem CheckRateLimit_found_active (hashAPIKey : String → String)
    (keys : List APIKey) (store : RateStore) (now : Nat) (apiKey : String)
    (record : APIKey) (windowStart newCount : Nat)
    (hfound : GetByKeyHash keys (hashAPIKey apiKey) = some record)
    (hws : windowStart = calculateWindowStart now record.rateWindowSeconds)
    (hn : newCount = GetRequestCount store record.id windowStart + 1) :
    (CheckRateLimit hashAPIKey keys store now apiKey).1.allowed
      = decide ((newCount : Int) ≤ record.rateLimit) ∧
    (CheckRateLimit hashAPIKey keys store now apiKey).1.limit
      = record.rateLimit ∧
    (CheckRateLimit hashAPIKey keys store now apiKey).1.remaining
      = max 0 (record.rateLimit - (newCount : Int)) ∧
    (CheckRateLimit hashAPIKey keys store now apiKey).1.resetTime
      = windowStart + record.rateWindowSeconds ∧
    GetRequestCount (CheckRateLimit hashAPIKey keys store now apiKey).2
      record.id windowStart = newCount ∧
    ((newCount : Int) = record.rateLimit →
      (CheckRateLimit hashAPIKey keys store now apiKey).1.allowed = true ∧
      (CheckRateLimit hashAPIKey keys store now apiKey).1.remaining = 0) ∧
    (record.rateLimit < (newCount : Int) →
      (CheckRateLimit hashAPIKey keys store now apiKey).1.allowed = false) := by
  subst hws
  subst hn
  have h1 := IncrementRequestCount_fst store record.id
    (calculateWindowStart now record.rateWindowSeconds)
  have h2 := GetRequestCount_IncrementRequestCount_self store record.id
    (calculateWindowStart now record.rateWindowSeconds)
  refine ⟨?_, ?_, ?_, ?_, ?_, ?_, ?_⟩
  · simp [CheckRateLimit, hfound, h1]
  · simp [CheckRateLimit, hfound]
  · simp only [CheckRateLimit, hfound, h1]
    split <;> omega
  · simp [CheckRateLimit, hfound]
  · simp [CheckRateLimit, hfound, h2]
  · intro hEq
    refine ⟨?_, ?_⟩
    · simp [CheckRateLimit, hfound, h1]
      omega
    · simp only [CheckRateLimit, hfound, h1, hEq]
      split <;> omega
  · intro hLt
    simp [CheckRateLimit, hfound, h1]
    omega

/-- C1 witness: a concrete key with limit 2 and window 60; at time 90 in
an empty store the first request lands in window [60, 120) with count 1,
allowed, remaining 1, reset at 120. -/
theorem CheckRateLimit_found_active_witness :
    (GetByKeyHash [⟨"k1", "h1", "demo", 2, 60, true⟩] ((fun s => s) "h1")
        = some ⟨"k1", "h1", "demo", 2, 60, true⟩ ∧
      (60 : Nat) = calculateWindowStart 90
        (APIKey.rateWindowSeconds ⟨"k1", "h1", "demo", 2, 60, true⟩) ∧
      (1 : Nat) = GetRequestCount []
        (APIKey.id ⟨"k1", "h1", "demo", 2, 60, true⟩) 60 + 1) ∧
    ((CheckRateLimit (fun s => s) [⟨"k1", "h1", "demo", 2, 60, true⟩] [] 90 "h1").1.allowed
      = decide (((1 : Nat) : Int) ≤ APIKey.rateLimit ⟨"k1", "h1", "demo", 2, 60, true⟩) ∧
    (CheckRateLimit (fun s => s) [⟨"k1", "h1", "demo", 2, 60, true⟩] [] 90 "h1").1.limit
      = APIKey.rateLimit ⟨"k1", "h1", "demo", 2, 60, true⟩ ∧
    (CheckRateLimit (fun s => s) [⟨"k1", "h1", "demo", 2, 60, true⟩] [] 90 "h1").1.remaining
      = max 0 (APIKey.rateLimit ⟨"k1", "h1", "demo", 2, 60, true⟩ - ((1 : Nat) : Int)) ∧
    (CheckRateLimit (fun s => s) [⟨"k1", "h1", "demo", 2, 60, true⟩] [] 90 "h1").1.resetTime
      = 60 + APIKey.rateWindowSeconds ⟨"k1", "h1", "demo", 2, 60, true⟩ ∧
    GetRequestCount (CheckRateLimit (fun s => s) [⟨"k1", "h1", "demo", 2, 60, true⟩] [] 90 "h1").2
      (APIKey.id ⟨"k1", "h1", "demo", 2, 60, true⟩) 60 = 1 ∧
    (((1 : Nat) : Int) = APIKey.rateLimit ⟨"k1", "h1", "demo", 2, 60, true⟩ →
      (CheckRateLimit (fun s => s) [⟨"k1", "h1", "demo", 2, 60, true⟩] [] 90 "h1").1.allowed = true ∧
      (CheckRateLimit (fun s => s) [⟨"k1", "h1", "demo", 2, 60, true⟩] [] 90 "h1").1.remaining = 0) ∧
    (APIKey.rateLimit ⟨"k1", "h1", "demo", 2, 60, true⟩ < ((1 : Nat) : Int) →
      (CheckRateLimit (fun s => s) [⟨"k1", "h1", "demo", 2, 60, true⟩] [] 90 "h1").1.allowed = false)) :=
  ⟨⟨by decide, by decide, by decide⟩,
    CheckRateLimit_found_active (fun s => s) [⟨"k1", "h1", "demo", 2, 60, true⟩]
      [] 90 "h1" ⟨"k1", "h1", "demo", 2, 60, true⟩ 60 1
      (by decide) (by decide) (by decide)⟩

/-- C5: the per-window increment is a single atomic upsert-and-return
operation, so K concurrent successful invocations for one key and window
linearize to K successive `IncrementRequestCount` steps; starting from a
window with no requests, they leave the stored count at exactly K, and
the observed values are 1, 2, ..., K — pairwise distinct with no skipped
value. -/
theorem IncrementRequestCount_no_lost_updates (store : RateStore)
    (keyID : String) (ws : Nat) (K : Nat)
    (h0 : GetRequestCount store keyID ws = 0) :
    GetRequestCount (iterateIncrements K store keyID ws).2 keyID ws = K ∧
    (iterateIncrements K store keyID ws).1
      = (List.range K).map (fun i => i + 1) ∧
    ((iterateIncrements K store keyID ws).1).Nodup := by
  have h := iterateIncrements_spec keyID ws K store
  refine ⟨by rw [h.2, h0]; omega, ?_, ?_⟩
  · rw [h.1, h0]
    simp
  · rw [h.1]
    exact List.Nodup.map (fun a b hab => by omega) (List.nodup_range K)

/-- C5 witness: three increments on a fresh window of an empty store. -/
theorem IncrementRequestCount_no_lost_updates_witness :
    GetRequestCount ([] : RateStore) "k" 0 = 0 ∧
    (GetRequestCount (iterateIncrements 3 [] "k" 0).2 "k" 0 = 3 ∧
      (iterateIncrements 3 ([] : RateStore) "k" 0).1
        = (List.range 3).map (fun i => i + 1) ∧
      ((iterateIncrements 3 ([] : RateStore) "k" 0).1).Nodup) :=
  ⟨rfl, IncrementRequestCount_no_lost_updates [] "k" 0 3 rfl⟩

/-- C6: for check time t ≥ 0 (Unix seconds) and window length W > 0 the
window start is floor(t / W) * W: a multiple of W with
windowStart ≤ t < windowStart + W; the first increment in a window
creates the counter row at count 1; and the increment preserves the
at-most-one-row-per-(key, window-start) invariant of
`rate_limit_records`. -/
theorem calculateWindowStart_aligned (now windowSeconds : Nat)
    (store : RateStore) (keyID : String) (hW : 0 < windowSeconds) :
    calculateWindowStart now windowSeconds % windowSeconds = 0 ∧
    calculateWindowStart now windowSeconds ≤ now ∧
    now < calculateWindowStart now windowSeconds + windowSeconds ∧
    ((keyID, calculateWindowStart now windowSeconds) ∉ storeKeys store →
      (IncrementRequestCount store keyID
        (calculateWindowStart now windowSeconds)).1 = 1 ∧
      GetRequestCount (IncrementRequestCount store keyID
          (calculateWindowStart now windowSeconds)).2 keyID
        (calculateWindowStart now windowSeconds) = 1 ∧
      (keyID, calculateWindowStart now windowSeconds) ∈ storeKeys
        (IncrementRequestCount store keyID
          (calculateWindowStart now windowSeconds)).2) ∧
    ((storeKeys store).Nodup →
      (storeKeys (IncrementRequestCount store keyID
        (calculateWindowStart now windowSeconds)).2).Nodup) := by
  refine ⟨?_, ?_, ?_, ?_, ?_⟩
  · exact Nat.mul_mod_left (now / windowSeconds) windowSeconds
  · exact Nat.div_mul_le_self now windowSeconds
  · exact Nat.lt_div_mul_add hW
  · intro habs
    have hz := GetRequestCount_eq_zero_of_not_mem store keyID
      (calculateWindowStart now windowSeconds) habs
    refine ⟨?_, ?_, ?_⟩
    · rw [IncrementRequestCount_fst, hz]
    · rw [GetRequestCount_IncrementRequestCount_self, hz]
    · rw [storeKeys_IncrementRequestCount]
      simp [habs]
  · exact storeKeys_nodup_IncrementRequestCount store keyID
      (calculateWindowStart now windowSeconds)

/-- C6 witness: t = 150, W = 60, a fresh key and empty store. -/
theorem calculateWindowStart_aligned_witness :
    (0 < 60 ∧ ((("k", calculateWindowStart 150 60) ∉ storeKeys ([] : RateStore)) ∧
      (storeKeys ([] : RateStore)).Nodup)) ∧
    (calculateWindowStart 150 60 % 60 = 0 ∧
      calculateWindowStart 150 60 ≤ 150 ∧
      150 < calculateWindowStart 150 60 + 60 ∧
      ((("k", calculateWindowStart 150 60) ∉ storeKeys ([] : RateStore)) →
        (IncrementRequestCount [] "k" (calculateWindowStart 150 60)).1 = 1 ∧
        GetRequestCount (IncrementRequestCount [] "k"
            (calculateWindowStart 150 60)).2 "k"
          (calculateWindowStart 150 60) = 1 ∧
        ("k", calculateWindowStart 150 60) ∈ storeKeys
          (IncrementRequestCount [] "k" (calculateWindowStart 150 60)).2) ∧
      ((storeKeys ([] : RateStore)).Nodup →
        (storeKeys (IncrementRequestCount [] "k"
          (calculateWindowStart 150 60)).2).Nodup)) :=
  ⟨⟨by decide, by decide, by decide⟩,
    calculateWindowStart_aligned 150 60 [] "k" (by decide)⟩

/-- C9: the admin create-key handler replaces a requested rate limit ≤ 0
by 100 and a requested window ≤ 0 by 60, so every persisted key has
limit ≥ 1 and window ≥ 1 second; for such a key `CheckRateLimit` reports
the configured limit, which is nonzero, so the middleware's limit == 0
invalid-key sentinel cannot fire for it, and the window-start division is
never by zero. -/
theorem CreateAPIKey_defaults (requestedLimit requestedWindow : Int)
    (hashAPIKey : String → String) (keys : List APIKey) (store : RateStore)
    (now : Nat) (apiKey : String) (record : APIKey)
    (hfound : GetByKeyHash keys (hashAPIKey apiKey) = some record)
    (hlim : record.rateLimit = effectiveRateLimit requestedLimit) :
    1 ≤ effectiveRateLimit requestedLimit ∧
    1 ≤ effectiveRateWindowSeconds requestedWindow ∧
    (effectiveRateWindowSeconds requestedWindow).toNat ≠ 0 ∧
    (CheckRateLimit hashAPIKey keys store now apiKey).1.limit
      = record.rateLimit ∧
    (CheckRateLimit hashAPIKey keys store now apiKey).1.limit ≠ 0 := by
  have hL : 1 ≤ effectiveRateLimit requestedLimit := by
    unfold effectiveRateLimit
    split <;> omega
  have hWp : 1 ≤ effectiveRateWindowSeconds requestedWindow := by
    unfold effectiveRateWindowSeconds
    split <;> omega
  refine ⟨hL, hWp, by omega, ?_, ?_⟩
  · simp [CheckRateLimit, hfound]
  · simp [CheckRateLimit, hfound]
    omega

/-- C9 witness: requested limit 0 and window -5 fall back to 100 and 60;
a key stored with the fallback limit is never reported with limit 0. -/
theorem CreateAPIKey_defaults_witness :
    (GetByKeyHash [⟨"k1", "h1", "demo", 100, 60, true⟩] ((fun s => s) "h1")
        = some ⟨"k1", "h1", "demo", 100, 60, true⟩ ∧
      APIKey.rateLimit ⟨"k1", "h1", "demo", 100, 60, true⟩
        = effectiveRateLimit 0) ∧
    (1 ≤ effectiveRateLimit 0 ∧
      1 ≤ effectiveRateWindowSeconds (-5) ∧
      (effectiveRateWindowSeconds (-5)).toNat ≠ 0 ∧
      (CheckRateLimit (fun s => s) [⟨"k1", "h1", "demo", 100, 60, true⟩] [] 0 "h1").1.limit
        = APIKey.rateLimit ⟨"k1", "h1", "demo", 100, 60, true⟩ ∧
      (CheckRateLimit (fun s => s) [⟨"k1", "h1", "demo", 100, 60, true⟩] [] 0 "h1").1.limit ≠ 0) :=
  ⟨⟨by decide, by decide⟩,
    CreateAPIKey_defaults 0 (-5) (fun s => s)
      [⟨"k1", "h1", "demo", 100, 60, true⟩] [] 0 "h1"
      ⟨"k1", "h1", "demo", 100, 60, true⟩ (by decide) (by decide)⟩

/-- C3: with a nonempty X-API-Key header, a digest matching no stored
record — in particular when every matching record is inactive, since the
lookup filters on `is_active = true` — makes `CheckRateLimit` return
`{Allowed: false, Limit: 0}` without error and the middleware answer 401;
a known active key (limit ≥ 1) whose window count exceeds its limit is
answered 429 with a Retry-After value; the reported limit equals the
configured one, so the two outcomes are distinguishable via the
limit == 0 sentinel. -/
theorem RateLimitMiddleware_distinguishes (hashAPIKey : String → String)
    (keys : List APIKey) (store : RateStore) (now : Nat) (apiKey : String)
    (hne : apiKey ≠ "") :
    (GetByKeyHash keys (hashAPIKey apiKey) = none →
      (CheckRateLimit hashAPIKey keys store now apiKey).1
          = ⟨false, 0, 0, now⟩ ∧
      (RateLimitMiddleware hashAPIKey keys store now apiKey).1
          = .invalidKey ∧
      outcomeStatus (RateLimitMiddleware hashAPIKey keys store now apiKey).1
          = some 401) ∧
    ((∀ k ∈ keys, k.keyHash = hashAPIKey apiKey → k.isActive = false) →
      GetByKeyHash keys (hashAPIKey apiKey) = none) ∧
    (∀ record, GetByKeyHash keys (hashAPIKey apiKey) = some record →
      1 ≤ record.rateLimit →
      (CheckRateLimit hashAPIKey keys store now apiKey).1.limit
          = record.rateLimit ∧
      (record.rateLimit <
          ((GetRequestCount store record.id
            (calculateWindowStart now record.rateWindowSeconds) + 1 : Nat) : Int) →
        ∃ retryAfter,
          (RateLimitMiddleware hashAPIKey keys store now apiKey).1
            = .rateLimited retryAfter ∧
          outcomeStatus (RateLimitMiddleware hashAPIKey keys store now apiKey).1
            = some 429)) := by
  refine ⟨?_, ?_, ?_⟩
  · intro hnone
    have hres : (CheckRateLimit hashAPIKey keys store now apiKey).1
        = ⟨false, 0, 0, now⟩ := by
      simp [CheckRateLimit, hnone]
    refine ⟨hres, ?_, ?_⟩
    · simp [RateLimitMiddleware, hne, hres]
    · simp [RateLimitMiddleware, hne, hres, outcomeStatus]
  · intro hall
    unfold GetByKeyHash
    rw [List.find?_eq_none]
    intro k hk
    simp only [Bool.and_eq_true, beq_iff_eq, not_and]
    intro hkh
    simp [hall k hk hkh]
  · intro record hfound hlim1
    have hfst := IncrementRequestCount_fst store record.id
      (calculateWindowStart now record.rateWindowSeconds)
    have hlimit : (CheckRateLimit hashAPIKey keys store now apiKey).1.limit
        = record.rateLimit := by
      simp [CheckRateLimit, hfound]
    refine ⟨hlimit, ?_⟩
    intro hover
    have hallow : (CheckRateLimit hashAPIKey keys store now apiKey).1.allowed
        = false := by
      simp [CheckRateLimit, hfound, hfst]
      omega
    have hlz : ¬(CheckRateLimit hashAPIKey keys store now apiKey).1.limit = 0 := by
      rw [hlimit]
      omega
    refine ⟨(if ((CheckRateLimit hashAPIKey keys store now apiKey).1.resetTime : Int)
        - (now : Int) < 0 then 1
      else ((CheckRateLimit hashAPIKey keys store now apiKey).1.resetTime : Int)
        - (now : Int)), ?_, ?_⟩
    · simp [RateLimitMiddleware, hne, hlz, hallow]
    · simp [RateLimitMiddleware, hne, hlz, hallow, outcomeStatus]

/-- C3 witness: a header whose digest matchList nothing in a single-key
store, exercised at time 90. -/
theorem RateLimitMiddleware_distinguishes_witness :
    ("zz" ≠ "") ∧
    ((GetByKeyHash [⟨"k1", "h1", "demo", 2, 60, true⟩] ((fun s => s) "zz") = none →
      (CheckRateLimit (fun s => s) [⟨"k1", "h1", "demo", 2, 60, true⟩] [] 90 "zz").1
          = ⟨false, 0, 0, 90⟩ ∧
      (RateLimitMiddleware (fun s => s) [⟨"k1", "h1", "demo", 2, 60, true⟩] [] 90 "zz").1
          = .invalidKey ∧
      outcomeStatus (RateLimitMiddleware (fun s => s)
          [⟨"k1", "h1", "demo", 2, 60, true⟩] [] 90 "zz").1 = some 401) ∧
    ((∀ k ∈ [⟨"k1", "h1", "demo", 2, 60, true⟩],
        APIKey.keyHash k = (fun s => s) "zz" → APIKey.isActive k = false) →
      GetByKeyHash [⟨"k1", "h1", "demo", 2, 60, true⟩] ((fun s => s) "zz") = none) ∧
    (∀ record, GetByKeyHash [⟨"k1", "h1", "demo", 2, 60, true⟩] ((fun s => s) "zz")
        = some record →
      1 ≤ record.rateLimit →
      (CheckRateLimit (fun s => s) [⟨"k1", "h1", "demo", 2, 60, true⟩] [] 90 "zz").1.limit
          = record.rateLimit ∧
      (record.rateLimit <
          ((GetRequestCount [] record.id
            (calculateWindowStart 90 record.rateWindowSeconds) + 1 : Nat) : Int) →
        ∃ retryAfter,
          (RateLimitMiddleware (fun s => s)
            [⟨"k1", "h1", "demo", 2, 60, true⟩] [] 90 "zz").1
            = .rateLimited retryAfter ∧
          outcomeStatus (RateLimitMiddleware (fun s => s)
            [⟨"k1", "h1", "demo", 2, 60, true⟩] [] 90 "zz").1 = some 429))) :=
  ⟨by decide,
    RateLimitMiddleware_distinguishes (fun s => s)
      [⟨"k1", "h1", "demo", 2, 60, true⟩] [] 90 "zz" (by decide)⟩

/-! ### AuthService (package auth)

JWT tokens are embedded structurally: a token is its claim set, the
signing method recorded in its header, and a signature value.  The HMAC
is modelled as a perfect MAC — the signature value determines (and is
determined by) the secret, the signed claim set and the method — which is
exactly the property `validateToken` relies on.  Account identifiers are
google/uuid values; `UUID.String()` emits the canonical lowercase 36-rune
form and `uuid.Parse` accepts it, so identifiers are modelled as canonical
UUID strings and `uuidParse` as the partial identity on them. -/

inductive TokenType
  | access
  | refresh
deriving DecidableEq, Repr

structure Claims where
  userID : String
  tokenType : TokenType
  expiresAt : Int
  issuedAt : Int
  notBefore : Int
  issuer : String
deriving DecidableEq, Repr

/-- The signing method in a token header; the keyfunc accepts exactly the
HMAC family (`token.Method.(*jwt.SigningMethodHMAC)`). -/
inductive SigningMethod
  | hs256
  | other
deriving DecidableEq, Repr

def SigningMethod.isHMAC : SigningMethod → Bool
  | .hs256 => true
  | .other => false

structure Signature where
  secret : String
  signedClaims : Claims
  method : SigningMethod
deriving DecidableEq, Repr

structure Token where
  claims : Claims
  method : SigningMethod
  sig : Signature
deriving DecidableEq, Repr

structure AuthService where
  jwtSecret : String
  accessTokenTTL : Int
  refreshTokenTTL : Int
deriving DecidableEq, Repr

structure TokenPair where
  accessToken : Token
  refreshToken : Token
  expiresIn : Int
deriving DecidableEq, Repr

def isLowerHexDigit (c : Char) : Bool :=
  ('0' ≤ c && c ≤ '9') || ('a' ≤ c && c ≤ 'f')

def uuidCharOK (cs : List Char) (i : Nat) : Bool :=
  if i = 8 || i = 13 || i = 18 || i = 23 then cs.getD i ' ' == '-'
  else isLowerHexDigit (cs.getD i ' ')

/-- Canonical lowercase `8-4-4-4-12` UUID text, the output format of
`uuid.UUID.String()`. -/
def isCanonicalUUID (s : String) : Bool :=
  s.data.length == 36 && (List.range 36).all (uuidCharOK s.data)

/-- `uuid.Parse` restricted to the canonical form round trip: parsing the
canonical rendering of a UUID yields that UUID back. -/
def uuidParse (s : String) : Option String :=
  if isCanonicalUUID s then some s else none

/-- `generateToken`: mints claims with subject, type tag, expiry
`now + ttl`, issued-at and not-before `now`, issuer `opgl-gateway`, and
signs them with HS256 under the service secret. -/
def generateToken (authService : AuthService) (userID : String)
    (tokenType : TokenType) (ttl : Int) (now : Int) : Token :=
  let claims : Claims := ⟨userID, tokenType, now + ttl, now, now, "opgl-gateway"⟩
  ⟨claims, .hs256, ⟨authService.jwtSecret, claims, .hs256⟩⟩

/-- `GenerateTokenPair`: an access token with the short TTL and a refresh
token with the long TTL, both for the same subject. -/
def GenerateTokenPair (authService : AuthService) (userID : String)
    (now : Int) : TokenPair :=
  ⟨generateToken authService userID .access authService.accessTokenTTL now,
   generateToken authService userID .refresh authService.refreshTokenTTL now,
   authService.accessTokenTTL⟩

def verifySignature (secret : String) (token : Token) : Bool :=
  decide (token.sig = ⟨secret, token.claims, token.method⟩)

/-- `validateToken`: reject non-HMAC signing methods (keyfunc), bad
signatures, not-yet-valid (`nbf` after now) and expired (`exp` not after
now) tokens, then the type-tag mismatch, then parse the subject as a
UUID.  Every rejection is an error return, modelled as `none`. -/
def validateToken (authService : AuthService) (token : Token)
    (expectedType : TokenType) (now : Int) : Option String :=
  if token.method.isHMAC = false then none
  else if verifySignature authService.jwtSecret token = false then none
  else if ¬(token.claims.notBefore ≤ now) then none
  else if ¬(now < token.claims.expiresAt) then none
  else if token.claims.tokenType ≠ expectedType then none
  else uuidParse token.claims.userID

def ValidateAccessToken (authService : AuthService) (token : Token)
    (now : Int) : Option String :=
  validateToken authService token .access now

def ValidateRefreshToken (authService : AuthService) (token : Token)
    (now : Int) : Option String :=
  validateToken authService token .refresh now

/-- C2: for any valid (canonical) account identifier, validating the
freshly generated pair's access token as an access token succeeds and
returns exactly that identifier, provided the access TTL has not elapsed
between issue and validation. -/
theorem ValidateAccessToken_roundtrip (authService : AuthService)
    (userID : String) (issueTime checkTime : Int)
    (hid : isCanonicalUUID userID = true)
    (h1 : issueTime ≤ checkTime)
    (h2 : checkTime < issueTime + authService.accessTokenTTL) :
    ValidateAccessToken authService
      (GenerateTokenPair authService userID issueTime).accessToken checkTime
      = some userID := by
  simp [ValidateAccessToken, validateToken, GenerateTokenPair, generateToken,
    verifySignature, SigningMethod.isHMAC, uuidParse, hid, h1, h2]

/-- C2 witness: the nil UUID issued at time 0 and checked at time 10
under a 900-second access TTL. -/
theorem ValidateAccessToken_roundtrip_witness :
    (isCanonicalUUID "00000000-0000-0000-0000-000000000000" = true ∧
      (0 : Int) ≤ 10 ∧
      (10 : Int) < 0 + AuthService.accessTokenTTL ⟨"secret", 900, 604800⟩) ∧
    ValidateAccessToken ⟨"secret", 900, 604800⟩
      (GenerateTokenPair ⟨"secret", 900, 604800⟩
        "00000000-0000-0000-0000-000000000000" 0).accessToken 10
      = some "00000000-0000-0000-0000-000000000000" :=
  ⟨⟨by decide, by decide, by decide⟩,
    ValidateAccessToken_roundtrip ⟨"secret", 900, 604800⟩
      "00000000-0000-0000-0000-000000000000" 0 10
      (by decide) (by decide) (by decide)⟩

/-- C7: validation with expected type access fails on any token carrying
the refresh tag and vice versa, even when the signature verifies; and a
token whose expiry is in the past fails validation for every expected
type, regardless of signature validity. -/
theorem validateToken_rejects_wrong_type_and_expired
    (authService : AuthService) (token : Token) (now : Int) :
    (token.claims.tokenType = .refresh →
      validateToken authService token .access now = none) ∧
    (token.claims.tokenType = .access →
      validateToken authService token .refresh now = none) ∧
    (token.claims.expiresAt < now →
      ∀ expectedType, validateToken authService token expectedType now = none) := by
  refine ⟨?_, ?_, ?_⟩
  · intro htype
    unfold validateToken
    split_ifs <;> simp_all
  · intro htype
    unfold validateToken
    split_ifs <;> simp_all
  · intro hexp expectedType
    unfold validateToken
    split_ifs <;> first | rfl | omega

/-- C7 witness: a correctly signed refresh token rejected as access, a
correctly signed access token rejected as refresh, and a correctly
signed, type-matching but expired access token rejected at time 50. -/
theorem validateToken_rejects_wrong_type_and_expired_witness :
    (Claims.tokenType
        ⟨"00000000-0000-0000-0000-000000000000", .refresh, 100, 0, 0, "opgl-gateway"⟩
        = .refresh ∧
      Claims.tokenType
        ⟨"00000000-0000-0000-0000-000000000000", .access, 100, 0, 0, "opgl-gateway"⟩
        = .access ∧
      Claims.expiresAt
        ⟨"00000000-0000-0000-0000-000000000000", .access, 40, 0, 0, "opgl-gateway"⟩
        < 50) ∧
    (validateToken ⟨"secret", 900, 604800⟩
      ⟨⟨"00000000-0000-0000-0000-000000000000", .refresh, 100, 0, 0, "opgl-gateway"⟩, .hs256,
        ⟨"secret", ⟨"00000000-0000-0000-0000-000000000000", .refresh, 100, 0, 0, "opgl-gateway"⟩, .hs256⟩⟩
      .access 50 = none ∧
    validateToken ⟨"secret", 900, 604800⟩
      ⟨⟨"00000000-0000-0000-0000-000000000000", .access, 100, 0, 0, "opgl-gateway"⟩, .hs256,
        ⟨"secret", ⟨"00000000-0000-0000-0000-000000000000", .access, 100, 0, 0, "opgl-gateway"⟩, .hs256⟩⟩
      .refresh 50 = none ∧
    validateToken ⟨"secret", 900, 604800⟩
      ⟨⟨"00000000-0000-0000-0000-000000000000", .access, 40, 0, 0, "opgl-gateway"⟩, .hs256,
        ⟨"secret", ⟨"00000000-0000-0000-0000-000000000000", .access, 40, 0, 0, "opgl-gateway"⟩, .hs256⟩⟩
      .access 50 = none) :=
  ⟨⟨rfl, rfl, by decide⟩,
    (validateToken_rejects_wrong_type_and_expired ⟨"secret", 900, 604800⟩
      ⟨⟨"00000000-0000-0000-0000-000000000000", .refresh, 100, 0, 0, "opgl-gateway"⟩, .hs256,
        ⟨"secret", ⟨"00000000-0000-0000-0000-000000000000", .refresh, 100, 0, 0, "opgl-gateway"⟩, .hs256⟩⟩
      50).1 rfl,
    (validateToken_rejects_wrong_type_and_expired ⟨"secret", 900, 604800⟩
      ⟨⟨"00000000-0000-0000-0000-000000000000", .access, 100, 0, 0, "opgl-gateway"⟩, .hs256,
        ⟨"secret", ⟨"00000000-0000-0000-0000-000000000000", .access, 100, 0, 0, "opgl-gateway"⟩, .hs256⟩⟩
      50).2.1 rfl,
    (validateToken_rejects_wrong_type_and_expired ⟨"secret", 900, 604800⟩
      ⟨⟨"00000000-0000-0000-0000-000000000000", .access, 40, 0, 0, "opgl-gateway"⟩, .hs256,
        ⟨"secret", ⟨"00000000-0000-0000-0000-000000000000", .access, 40, 0, 0, "opgl-gateway"⟩, .hs256⟩⟩
      50).2.2 (by decide) .access⟩

/-! ### Registration (internal/api auth handlers + repository/user.go)

`getByEmail` abstracts the user store lookup (`nil` as `none`),
`hashPassword` abstracts bcrypt, and `newID` is the identifier Postgres
generates for the inserted row; `Create` returns the row with the email
it was given.  The user row's timestamps are never read by `Register` and
are omitted.  Go's `len` on a string counts bytes, hence
`String.utf8ByteSize`. -/

structure User where
  id : String
  email : String
  passwordHash : String
deriving DecidableEq, Repr

structure RegisterRequest where
  email : String
  password : String
deriving DecidableEq, Repr

structure RegisterResponse where
  id : String
  email : String
deriving DecidableEq, Repr

/-- The JSON object `json.NewEncoder(...).Encode` emits for
`RegisterResponse`: exactly the tagged fields `id` and `email`. -/
def encodeRegisterResponse (resp : RegisterResponse) : List (String × String) :=
  [("id", resp.id), ("email", resp.email)]

inductive RegisterOutcome
  | badRequest (message : String)
  | conflict
  | created (resp : RegisterResponse)
deriving DecidableEq, Repr

/-- HTTP status written for each register outcome (400 validation,
409 email conflict, 201 created). -/
def registerStatus : RegisterOutcome → Nat
  | .badRequest _ => 400
  | .conflict => 409
  | .created _ => 201

/-- `Register`: validate email presence and format, password presence and
byte length, check for an existing user, then create and respond with
`{id, email}`. -/
def Register (getByEmail : String → Option User)
    (hashPassword : String → String) (newID : String)
    (req : RegisterRequest) : RegisterOutcome :=
  if req.email = "" then .badRequest "email is required"
  else if req.email.data.contains '@' = false then .badRequest "invalid email format"
  else if req.password = "" then .badRequest "password is required"
  else if req.password.utf8ByteSize < 8 then
    .badRequest "password must be at least 8 characters"
  else
    match getByEmail req.email with
    | some _ => .conflict
    | none =>
      let user : User := ⟨newID, req.email, hashPassword req.password⟩
      .created ⟨user.id, user.email⟩

/-- C8: Register answers 400 for a missing email, an email without `@`,
a missing password, or a password shorter than 8 bytes; 409 when a user
with the same email exists; and otherwise 201 with a body holding exactly
the new account's id and email — no password or hash field. -/
theorem Register_spec (getByEmail : String → Option User)
    (hashPassword : String → String) (newID : String)
    (req : RegisterRequest) :
    (req.email = "" →
      registerStatus (Register getByEmail hashPassword newID req) = 400) ∧
    (req.email.data.contains '@' = false →
      registerStatus (Register getByEmail hashPassword newID req) = 400) ∧
    (req.password = "" →
      registerStatus (Register getByEmail hashPassword newID req) = 400) ∧
    (req.password.utf8ByteSize < 8 →
      registerStatus (Register getByEmail hashPassword newID req) = 400) ∧
    (req.email ≠ "" → req.email.data.contains '@' = true → req.password ≠ "" →
      8 ≤ req.password.utf8ByteSize →
      ((∀ u, getByEmail req.email = some u →
        Register getByEmail hashPassword newID req = .conflict ∧
        registerStatus (Register getByEmail hashPassword newID req) = 409) ∧
      (getByEmail req.email = none →
        Register getByEmail hashPassword newID req
          = .created ⟨newID, req.email⟩ ∧
        registerStatus (Register getByEmail hashPassword newID req) = 201 ∧
        (encodeRegisterResponse ⟨newID, req.email⟩).map Prod.fst
          = ["id", "email"] ∧
        "password" ∉ (encodeRegisterResponse ⟨newID, req.email⟩).map Prod.fst ∧
        "passwordHash" ∉
          (encodeRegisterResponse ⟨newID, req.email⟩).map Prod.fst))) := by
  refine ⟨?_, ?_, ?_, ?_, ?_⟩
  · intro h
    simp [Register, registerStatus, h]
  · intro h
    unfold Register
    split_ifs <;> simp_all [registerStatus]
  · intro h
    unfold Register
    split_ifs <;> simp_all [registerStatus]
  · intro h
    unfold Register
    split_ifs <;> simp_all [registerStatus]
  · intro he ha hp hl
    have hlt : ¬req.password.utf8ByteSize < 8 := by omega
    have hmem : '@' ∈ req.email.data := by simpa using ha
    refine ⟨?_, ?_⟩
    · intro u hu
      simp [Register, registerStatus, he, hmem, hp, hlt, hu]
    · intro hnone
      simp [Register, registerStatus, he, hmem, hp, hlt, hnone,
        encodeRegisterResponse]

/-- C8 witness: a fresh email with a long-enough password against an
empty user store creates the account and returns only id and email. -/
theorem Register_spec_witness :
    ("a@b.com" ≠ "" ∧ List.contains "a@b.com".data '@' = true ∧
      "longenough" ≠ "" ∧ 8 ≤ String.utf8ByteSize "longenough" ∧
      (fun (_ : String) => (none : Option User)) "a@b.com" = none) ∧
    (Register (fun _ => none) (fun s => s) "u1" ⟨"a@b.com", "longenough"⟩
        = .created ⟨"u1", "a@b.com"⟩ ∧
      registerStatus (Register (fun _ => none) (fun s => s) "u1"
        ⟨"a@b.com", "longenough"⟩) = 201 ∧
      (encodeRegisterResponse ⟨"u1", "a@b.com"⟩).map Prod.fst = ["id", "email"] ∧
      "password" ∉ (encodeRegisterResponse ⟨"u1", "a@b.com"⟩).map Prod.fst ∧
      "passwordHash" ∉ (encodeRegisterResponse ⟨"u1", "a@b.com"⟩).map Prod.fst) :=
  ⟨⟨by decide, by decide, by decide, by decide, rfl⟩,
    ((Register_spec (fun _ => none) (fun s => s) "u1"
        ⟨"a@b.com", "longenough"⟩).2.2.2.2
      (by decide) (by decide) (by decide) (by decide)).2 rfl⟩

/-! ### Orchestrator (internal/api/handlers.go + internal/proxy)

The downstream services are consumed through `ServiceProxyInterface`;
here an oracle of four functions, each returning either a value or the
error string the HTTP-backed implementation would produce (connection
failure or a non-200 downstream status).  Handlers are modelled as
functions from the decoded request body to the written response paired
with the exact sequence of proxy calls made, so that call-order and
never-called properties are statable.  Match rows and analysis payloads
are opaque to the gateway's control flow and carry representative fields
only. -/

structure Summoner where
  id : String
  accountID : String
  puuid : String
  name : String
  profileIconID : Int
  summonerLevel : Int
deriving DecidableEq, Repr

structure MatchRecord where
  matchID : String
deriving DecidableEq, Repr

structure AnalysisResult where
  playerStats : String
  improvementAreas : String
  analyzedAt : Int
deriving DecidableEq, Repr

inductive ProxyCall
  | summonerCall (region gameName tagLine : String)
  | matchesByRiotIDCall (region gameName tagLine : String) (count : Int)
  | matchesByPUUIDCall (region puuid : String) (count : Int)
  | analysisCall (summoner : Summoner) (matchList : List MatchRecord)
deriving DecidableEq, Repr

structure ServiceProxyOracle where
  getSummonerByRiotID : String → String → String → Except String Summoner
  getMatchesByRiotID : String → String → String → Int → Except String (List MatchRecord)
  getMatchesByPUUID : String → String → Int → Except String (List MatchRecord)
  analyzePlayer : Summoner → List MatchRecord → Except String AnalysisResult

inductive HandlerResponse (α : Type)
  | badRequest (message : String)
  | internalError (message : String)
  | ok (body : α)
deriving DecidableEq, Repr

/-- HTTP status of a handler response (400 `http.Error` on validation,
500 `http.Error` on any proxy error, 200 on the encoded body). -/
def handlerStatus {α : Type} : HandlerResponse α → Nat
  | .badRequest _ => 400
  | .internalError _ => 500
  | .ok _ => 200

structure AnalyzeRequest where
  region : String
  gameName : String
  tagLine : String
deriving DecidableEq, Repr

/-- `AnalyzePlayer` handler: validate the triple, then strictly in order
fetch the summoner by Riot ID, fetch match history by the returned PUUID
with count 20, and submit both for analysis; the first error aborts with
a 500 carrying that error alone. -/
def AnalyzePlayer (proxy : ServiceProxyOracle) (req : AnalyzeRequest) :
    HandlerResponse AnalysisResult × List ProxyCall :=
  if req.region = "" ∨ req.gameName = "" ∨ req.tagLine = "" then
    (.badRequest "region, gameName, and tagLine are required", [])
  else
    match proxy.getSummonerByRiotID req.region req.gameName req.tagLine with
    | .error e =>
      (.internalError e, [.summonerCall req.region req.gameName req.tagLine])
    | .ok summoner =>
      match proxy.getMatchesByPUUID req.region summoner.puuid 20 with
      | .error e =>
        (.internalError e,
          [.summonerCall req.region req.gameName req.tagLine,
           .matchesByPUUIDCall req.region summoner.puuid 20])
      | .ok matchList =>
        match proxy.analyzePlayer summoner matchList with
        | .error e =>
          (.internalError e,
            [.summonerCall req.region req.gameName req.tagLine,
             .matchesByPUUIDCall req.region summoner.puuid 20,
             .analysisCall summoner matchList])
        | .ok result =>
          (.ok result,
            [.summonerCall req.region req.gameName req.tagLine,
             .matchesByPUUIDCall req.region summoner.puuid 20,
             .analysisCall summoner matchList])

structure MatchesRequest where
  region : String
  gameName : String
  tagLine : String
  count : Int
deriving DecidableEq, Repr

/-- `GetMatches` handler: validate the triple, default a count ≤ 0 (in
particular the Go zero value of an omitted field) to 20, and proxy the
history fetch by Riot ID. -/
def GetMatches (proxy : ServiceProxyOracle) (req : MatchesRequest) :
    HandlerResponse (List MatchRecord) × List ProxyCall :=
  if req.region = "" ∨ req.gameName = "" ∨ req.tagLine = "" then
    (.badRequest "region, gameName, and tagLine are required", [])
  else
    let count := if req.count ≤ 0 then 20 else req.count
    match proxy.getMatchesByRiotID req.region req.gameName req.tagLine count with
    | .error e =>
      (.internalError e,
        [.matchesByRiotIDCall req.region req.gameName req.tagLine count])
    | .ok matchList =>
      (.ok matchList,
        [.matchesByRiotIDCall req.region req.gameName req.tagLine count])

/-- C4: in the analyze pipeline, the history fetch is invoked with the
PUUID returned by the profile lookup — never via the caller-supplied
name/tag route; a failed profile lookup prevents the history and analysis
calls; a failed history fetch prevents the analysis call; and each
failing step yields exactly one 500 error response carrying that step's
error, with no partial result. -/
theorem AnalyzePlayer_pipeline (proxy : ServiceProxyOracle)
    (req : AnalyzeRequest) (hr : req.region ≠ "") (hg : req.gameName ≠ "")
    (ht : req.tagLine ≠ "") :
    (∀ e, proxy.getSummonerByRiotID req.region req.gameName req.tagLine
        = .error e →
      AnalyzePlayer proxy req
        = (.internalError e,
           [.summonerCall req.region req.gameName req.tagLine]) ∧
      (∀ region puuid count,
        .matchesByPUUIDCall region puuid count ∉ (AnalyzePlayer proxy req).2) ∧
      (∀ summoner matchList,
        .analysisCall summoner matchList ∉ (AnalyzePlayer proxy req).2)) ∧
    (∀ summoner, proxy.getSummonerByRiotID req.region req.gameName req.tagLine
        = .ok summoner →
      (∀ region puuid count,
        .matchesByPUUIDCall region puuid count ∈ (AnalyzePlayer proxy req).2 →
        region = req.region ∧ puuid = summoner.puuid ∧ count = 20) ∧
      (∀ region gameName tagLine count,
        .matchesByRiotIDCall region gameName tagLine count
          ∉ (AnalyzePlayer proxy req).2) ∧
      (∀ e, proxy.getMatchesByPUUID req.region summoner.puuid 20 = .error e →
        AnalyzePlayer proxy req
          = (.internalError e,
             [.summonerCall req.region req.gameName req.tagLine,
              .matchesByPUUIDCall req.region summoner.puuid 20]) ∧
        (∀ s ms, .analysisCall s ms ∉ (AnalyzePlayer proxy req).2)) ∧
      (∀ matchList e, proxy.getMatchesByPUUID req.region summoner.puuid 20
          = .ok matchList →
        proxy.analyzePlayer summoner matchList = .error e →
        AnalyzePlayer proxy req
          = (.internalError e,
             [.summonerCall req.region req.gameName req.tagLine,
              .matchesByPUUIDCall req.region summoner.puuid 20,
              .analysisCall summoner matchList]))) := by
  constructor
  · intro e he
    refine ⟨by simp [AnalyzePlayer, hr, hg, ht, he], ?_, ?_⟩
    · intro region puuid count
      simp [AnalyzePlayer, hr, hg, ht, he]
    · intro summoner matchList
      simp [AnalyzePlayer, hr, hg, ht, he]
  · intro summoner hs
    refine ⟨?_, ?_, ?_, ?_⟩
    · intro region puuid count hmem
      simp only [AnalyzePlayer, hr, hg, ht, hs] at hmem
      rcases hh : proxy.getMatchesByPUUID req.region summoner.puuid 20 with e | matchList
      · simp [hh] at hmem
        exact hmem
      · rcases ha : proxy.analyzePlayer summoner matchList with e | result
        · simp [hh, ha] at hmem
          exact hmem
        · simp [hh, ha] at hmem
          exact hmem
    · intro region gameName tagLine count
      simp only [AnalyzePlayer, hr, hg, ht, hs]
      rcases hh : proxy.getMatchesByPUUID req.region summoner.puuid 20 with e | matchList
      · simp [hh]
      · rcases ha : proxy.analyzePlayer summoner matchList with e | result
        · simp [hh, ha]
        · simp [hh, ha]
    · intro e hh
      refine ⟨by simp [AnalyzePlayer, hr, hg, ht, hs, hh], ?_⟩
      intro s ms
      simp [AnalyzePlayer, hr, hg, ht, hs, hh]
    · intro matchList e hh ha
      simp [AnalyzePlayer, hr, hg, ht, hs, hh, ha]

/-- C4 witness: a pipeline whose profile lookup succeeds with PUUID `p1`
and whose history fetch fails; the response is the single history error
and the analysis call never happens. -/
theorem AnalyzePlayer_pipeline_witness :
    ("na" ≠ "" ∧ "player" ≠ "" ∧ "tag" ≠ "" ∧
      ServiceProxyOracle.getSummonerByRiotID
        ⟨fun _ _ _ => .ok ⟨"s1", "a1", "p1", "player", 1, 30⟩,
         fun _ _ _ _ => .ok [], fun _ _ _ => .error "boom",
         fun _ _ => .ok ⟨"stats", "notes", 0⟩⟩ "na" "player" "tag"
        = .ok ⟨"s1", "a1", "p1", "player", 1, 30⟩ ∧
      ServiceProxyOracle.getMatchesByPUUID
        ⟨fun _ _ _ => .ok ⟨"s1", "a1", "p1", "player", 1, 30⟩,
         fun _ _ _ _ => .ok [], fun _ _ _ => .error "boom",
         fun _ _ => .ok ⟨"stats", "notes", 0⟩⟩ "na"
        (Summoner.puuid ⟨"s1", "a1", "p1", "player", 1, 30⟩) 20
        = .error "boom") ∧
    (AnalyzePlayer
        ⟨fun _ _ _ => .ok ⟨"s1", "a1", "p1", "player", 1, 30⟩,
         fun _ _ _ _ => .ok [], fun _ _ _ => .error "boom",
         fun _ _ => .ok ⟨"stats", "notes", 0⟩⟩ ⟨"na", "player", "tag"⟩
      = (.internalError "boom",
         [.summonerCall "na" "player" "tag",
          .matchesByPUUIDCall "na"
            (Summoner.puuid ⟨"s1", "a1", "p1", "player", 1, 30⟩) 20]) ∧
      (∀ s ms, .analysisCall s ms ∉
        (AnalyzePlayer
          ⟨fun _ _ _ => .ok ⟨"s1", "a1", "p1", "player", 1, 30⟩,
           fun _ _ _ _ => .ok [], fun _ _ _ => .error "boom",
           fun _ _ => .ok ⟨"stats", "notes", 0⟩⟩ ⟨"na", "player", "tag"⟩).2)) :=
  ⟨⟨by decide, by decide, by decide, rfl, rfl⟩,
    ((AnalyzePlayer_pipeline
        ⟨fun _ _ _ => .ok ⟨"s1", "a1", "p1", "player", 1, 30⟩,
         fun _ _ _ _ => .ok [], fun _ _ _ => .error "boom",
         fun _ _ => .ok ⟨"stats", "notes", 0⟩⟩ ⟨"na", "player", "tag"⟩
        (by decide) (by decide) (by decide)).2
      ⟨"s1", "a1", "p1", "player", 1, 30⟩ rfl).2.2.1 "boom" rfl⟩

/-- C10: a matchList request with count ≤ 0 (the decoded value of an
omitted field is 0) reaches the downstream history fetch with count 20,
and the analyze pipeline's history fetch always uses count 20 regardless
of caller input. -/
theorem GetMatches_default_count (proxy : ServiceProxyOracle)
    (req : MatchesRequest) (areq : AnalyzeRequest) (hc : req.count ≤ 0) :
    (∀ region gameName tagLine count,
      .matchesByRiotIDCall region gameName tagLine count
        ∈ (GetMatches proxy req).2 → count = 20) ∧
    (∀ region puuid count,
      .matchesByPUUIDCall region puuid count
        ∈ (AnalyzePlayer proxy areq).2 → count = 20) := by
  constructor
  · intro region gameName tagLine count hmem
    unfold GetMatches at hmem
    by_cases hv2 : req.region = "" ∨ req.gameName = "" ∨ req.tagLine = ""
    · simp [hv2] at hmem
    · simp only [hv2, if_false] at hmem
      rw [if_pos hc] at hmem
      rcases hh : proxy.getMatchesByRiotID req.region req.gameName
          req.tagLine 20 with e | matchList
      · simp [hh] at hmem
        exact hmem.2.2.2
      · simp [hh] at hmem
        exact hmem.2.2.2
  · intro region puuid count hmem
    unfold AnalyzePlayer at hmem
    by_cases hv : areq.region = "" ∨ areq.gameName = "" ∨ areq.tagLine = ""
    · simp [hv] at hmem
    · simp only [hv, if_false] at hmem
      rcases hs : proxy.getSummonerByRiotID areq.region areq.gameName
          areq.tagLine with e | summoner
      · simp [hs] at hmem
      · rcases hh : proxy.getMatchesByPUUID areq.region summoner.puuid 20
            with e | matchList
        · simp [hs, hh] at hmem
          exact hmem.2.2
        · rcases ha : proxy.analyzePlayer summoner matchList with e | result
          · simp [hs, hh, ha] at hmem
            exact hmem.2.2
          · simp [hs, hh, ha] at hmem
            exact hmem.2.2

/-- C10 witness: a request omitting count (decoded as 0) leads to a
history fetch with count 20. -/
theorem GetMatches_default_count_witness :
    ((0 : Int) ≤ 0 ∧
      .matchesByRiotIDCall "na" "player" "tag" 20 ∈
        (GetMatches
          ⟨fun _ _ _ => .ok ⟨"s1", "a1", "p1", "player", 1, 30⟩,
           fun _ _ _ _ => .ok [], fun _ _ _ => .ok [],
           fun _ _ => .ok ⟨"stats", "notes", 0⟩⟩
          ⟨"na", "player", "tag", 0⟩).2) ∧
    (.matchesByRiotIDCall "na" "player" "tag" 20 ∈
        (GetMatches
          ⟨fun _ _ _ => .ok ⟨"s1", "a1", "p1", "player", 1, 30⟩,
           fun _ _ _ _ => .ok [], fun _ _ _ => .ok [],
           fun _ _ => .ok ⟨"stats", "notes", 0⟩⟩
          ⟨"na", "player", "tag", 0⟩).2 →
      (20 : Int) = 20) :=
  ⟨⟨by decide, by simp [GetMatches]⟩,
    (GetMatches_default_count
      ⟨fun _ _ _ => .ok ⟨"s1", "a1", "p1", "player", 1, 30⟩,
       fun _ _ _ _ => .ok [], fun _ _ _ => .ok [],
       fun _ _ => .ok ⟨"stats", "notes", 0⟩⟩
      ⟨"na", "player", "tag", 0⟩ ⟨"na", "player", "tag"⟩
      (by decide)).1 "na" "player" "tag" 20⟩

end OpglGateway
